import Mathlib

/-!
Shallow embedding of the EchoChamber interest-graph engine.

The definitions below transcribe the state and operations of the source:
  - src/App.tsx: handleInteraction (vote state machine, clamped weight
    mutation), fetchNewPost (pagination flag, enrichment merge);
  - src/components/InterestGraph.tsx: the topology effect (full reseed) and
    the live-update reconciler (pulse versus passive resize);
  - src/unnamed/part_000: analyzePostRisk response handling.
Machine numbers (weights, timestamps) are modelled as Int; TypeScript union
types with null are modelled as Option.
-/

namespace EchoChamber

/-- Vote direction on a feed item. The source stores userVote as the union
of the string literals for up and down, or null (src/App.tsx), modelled here
as Option Vote. -/
inductive Vote
  | up
  | down
deriving DecidableEq, Repr, Fintype

/-- The three user interactions handled by handleInteraction
(src/App.tsx line 112). -/
inductive InteractionType
  | upvote
  | downvote
  | click
deriving DecidableEq, Repr, Fintype

/-- Result of the guard analysis (GuardAnalysis in types, produced by
analyzePostRisk in src/unnamed/part_000). The manipulationType field is
absent when the post is not flagged. -/
structure GuardAnalysis where
  isProvocative : Bool
  reasoning : String
  manipulationType : Option String
deriving DecidableEq, Repr

/-- Node category: subreddit or topic. -/
inductive NodeType
  | subreddit
  | topic
deriving DecidableEq, Repr, Fintype

/-- Graph node: identity, category, cluster id, weight (val), description,
and the optional last-mutation timestamp in milliseconds
(set at src/App.tsx line 170). -/
structure GraphNode where
  id : String
  type : NodeType
  group : Int
  val : Int
  desc : String
  lastUpdated : Option Int
deriving DecidableEq, Repr

/-- Graph link: ordered pair of node identities plus a strength value. -/
structure GraphLink where
  source : String
  target : String
  value : Int
deriving DecidableEq, Repr

/-- Feed item (RedditPost in types): identity, display content, engagement
counters, the graph node it is about (topicId), the vote state, and the
optional guard result attached asynchronously. -/
structure RedditPost where
  id : String
  title : String
  subreddit : String
  content : String
  topicId : String
  upvotes : Int
  comments : Int
  userVote : Option Vote
  guardResult : Option GuardAnalysis
deriving DecidableEq, Repr

/-- The App component state touched by the embedded handlers
(src/App.tsx lines 13-17): the feed sequence, the active detail-view post,
the graph data (nodes and links), and the pagination in-flight flag. -/
structure AppModel where
  posts : List RedditPost
  activePost : Option RedditPost
  nodes : List GraphNode
  links : List GraphLink
  isLoadingPost : Bool
deriving DecidableEq, Repr

/-- Interaction state machine, transcribed from handleInteraction
(src/App.tsx lines 117-140): from the interaction type and the prior vote
state of the post, compute the new vote state and the weight delta. -/
def applyInteraction (type : InteractionType) (userVote : Option Vote) :
    Option Vote × Int :=
  match type with
  | .click => (userVote, 5)
  | .upvote =>
    if userVote = some .up then
      (none, -25)
    else
      (some .up, if userVote = some .down then 45 else 25)
  | .downvote =>
    if userVote = some .down then
      (none, 20)
    else
      (some .down, if userVote = some .up then -45 else -20)

/-- Weight clamp from src/App.tsx line 166:
Math.max(10, Math.min(180, node.val + weightChange)). -/
def clampWeight (x : Int) : Int := max 10 (min 180 x)

/-- Per-post updater of the feed used by handleInteraction
(src/App.tsx lines 143-147): posts with a different id are unchanged, a
click leaves the post object unchanged, otherwise the vote state is
replaced. -/
def updatePostVote (type : InteractionType) (newVote : Option Vote)
    (postId : String) (p : RedditPost) : RedditPost :=
  if p.id ≠ postId then p
  else if type = .click then p
  else { p with userVote := newVote }

/-- Active-post sync from handleInteraction (src/App.tsx lines 150-156):
only when a detail view is open on the interacted post is its vote state
replaced (a click leaves it unchanged). -/
def updateActivePost (type : InteractionType) (newVote : Option Vote)
    (postId : String) : Option RedditPost → Option RedditPost
  | none => none
  | some a =>
    if a.id = postId then
      if type = .click then some a else some { a with userVote := newVote }
    else some a

/-- Graph store mutation from handleInteraction (src/App.tsx lines 162-174):
the node whose id matches topicId gets the clamped new weight and the
current timestamp; every other node is unchanged. -/
def mutateNode (topicId : String) (weightChange : Int) (now : Int)
    (node : GraphNode) : GraphNode :=
  if node.id = topicId then
    { node with
      val := clampWeight (node.val + weightChange),
      lastUpdated := some now }
  else node

/-- Full interaction handler (src/App.tsx lines 112-178): look the post up
by identity; if absent, return unchanged; otherwise run the state machine,
update the feed vote state, sync the open detail view, and, when the delta
is nonzero, apply the clamped weight mutation with a fresh timestamp. -/
def handleInteraction (type : InteractionType) (topicId postId : String)
    (now : Int) (s : AppModel) : AppModel :=
  match s.posts.find? (fun p => p.id = postId) with
  | none => s
  | some currentPost =>
    let r := applyInteraction type currentPost.userVote
    { s with
      posts := s.posts.map (updatePostVote type r.1 postId),
      activePost := updateActivePost type r.1 postId s.activePost,
      nodes :=
        if r.2 ≠ 0 then s.nodes.map (mutateNode topicId r.2 now)
        else s.nodes }

/-- Concrete node at the clamp boundary, for boundary scenarios. -/
def gamingNode : GraphNode :=
  { id := "r/gaming", type := .subreddit, group := 1, val := 180,
    desc := "", lastUpdated := none }

/-- Concrete feed item about gamingNode with no vote cast yet. -/
def post1 : RedditPost :=
  { id := "post-1", title := "t", subreddit := "gaming", content := "c",
    topicId := "r/gaming", upvotes := 10, comments := 2, userVote := none,
    guardResult := none }

/-- Concrete app state: one post, one boundary node, nothing in flight. -/
def state1 : AppModel :=
  { posts := [post1], activePost := none, nodes := [gamingNode],
    links := [], isLoadingPost := false }

/-- Concrete node in the unclamped middle range. -/
def midNode : GraphNode :=
  { id := "r/movies", type := .subreddit, group := 2, val := 50,
    desc := "", lastUpdated := none }

/-- Concrete feed item about midNode with no vote cast yet. -/
def post2 : RedditPost :=
  { id := "post-2", title := "t2", subreddit := "movies", content := "c2",
    topicId := "r/movies", upvotes := 3, comments := 0, userVote := none,
    guardResult := none }

/-- Concrete app state around the unclamped node midNode. -/
def state2 : AppModel :=
  { posts := [post2], activePost := none, nodes := [midNode],
    links := [], isLoadingPost := false }

/-- Per-item merge used when an enrichment result resolves
(src/App.tsx lines 70-74): the item whose id matches gets the guard result,
every other item is returned unchanged. -/
def mergeGuardInto (pid : String) (risk : GuardAnalysis) (p : RedditPost) :
    RedditPost :=
  if p.id = pid then { p with guardResult := some risk } else p

/-- Feed merge on enrichment resolution (src/App.tsx lines 70-74). -/
def mergeGuardResult (pid : String) (risk : GuardAnalysis)
    (posts : List RedditPost) : List RedditPost :=
  posts.map (mergeGuardInto pid risk)

/-- Full enrichment resolution (src/App.tsx lines 69-83): merge into the
feed by identity, and mirror the result into the open detail view when it
shows the same item. -/
def resolveEnrichment (pid : String) (risk : GuardAnalysis) (s : AppModel) :
    AppModel :=
  { s with
    posts := mergeGuardResult pid risk s.posts,
    activePost :=
      match s.activePost with
      | some a =>
        if a.id = pid then some { a with guardResult := some risk }
        else some a
      | none => none }

/-- Response handling of analyzePostRisk (src/unnamed/part_000 lines
346-349): an empty model response yields the fallback result with
isProvocative false and the reasoning text Analysis failed.; otherwise the
parsed response is returned. The JSON parse is abstracted as a function
argument. -/
def analyzePostRiskOutcome (responseText : Option String)
    (parse : String → GuardAnalysis) : GuardAnalysis :=
  match responseText with
  | none =>
    { isProvocative := false, reasoning := "Analysis failed.",
      manipulationType := none }
  | some t => parse t

/-- Events seen by the pagination controller: a visibility trigger of
fetchNewPost, and the two possible completions of the generation request. -/
inductive FetchEvent
  | trigger
  | success (post : RedditPost)
  | failure
deriving DecidableEq, Repr

/-- One step of fetchNewPost (src/App.tsx lines 57-90) as a labelled
transition; the Bool output records whether this event issued a generation
request. A trigger returns immediately when a request is in flight
(line 58), otherwise it sets the flag and issues the request (lines 59-62).
A successful completion appends the new post (line 65) and the finally
block clears the flag (line 88); a failed completion only logs and clears
the flag (lines 85-89). -/
def fetchStep (s : AppModel) : FetchEvent → AppModel × Bool
  | .trigger =>
    if s.isLoadingPost then (s, false)
    else ({ s with isLoadingPost := true }, true)
  | .success post =>
    ({ s with posts := s.posts ++ [post], isLoadingPost := false }, false)
  | .failure => ({ s with isLoadingPost := false }, false)

/-- Number of generation requests issued along a sequence of events. -/
def issuedCount (s : AppModel) : List FetchEvent → Nat
  | [] => 0
  | e :: es =>
    (if (fetchStep s e).2 then 1 else 0) + issuedCount (fetchStep s e).1 es

/-- Recency test of the live-update effect
(src/components/InterestGraph.tsx line 163): the incoming node carries a
timestamp that lies within 1000 ms of now. -/
def isRecent (lastUpdated : Option Int) (now : Int) : Bool :=
  match lastUpdated with
  | some t => now - t < 1000
  | none => false

/-- Radius-change test of the passive branch
(src/components/InterestGraph.tsx line 179): the absolute difference
exceeds 0.1, written here over integers scaled by ten. -/
def valChangedOverTenth (oldVal newVal : Int) : Bool :=
  10 * (oldVal - newVal).natAbs > 1

/-- The three per-node outcomes of one live-update cycle. -/
inductive UpdateAction
  | pulse
  | passiveResize
  | noChange
deriving DecidableEq, Repr, Fintype

/-- Per-node decision of the live-update effect
(src/components/InterestGraph.tsx lines 152-188): a recent timestamp
triggers the pulse transition (enlarge and brighten, then elastically
settle back); otherwise a changed radius triggers only the passive resize;
otherwise the circle of that node receives no transition at all. -/
def updateAction (oldVal : Int) (node : GraphNode) (now : Int) :
    UpdateAction :=
  if isRecent node.lastUpdated now then .pulse
  else if valChangedOverTenth oldVal node.val then .passiveResize
  else .noChange

/-- One full live-update cycle over the simulation nodes: each simulation
node (identity and current physics value) is matched by identity to the
incoming data nodes and classified; the classification of a node reads
nothing but that node's own entry. -/
def reconcileCycle (simNodes : List (String × Int))
    (dataNodes : List GraphNode) (now : Int) :
    List (String × UpdateAction) :=
  simNodes.map (fun sd =>
    match dataNodes.find? (fun n => n.id = sd.1) with
    | some newData => (sd.1, updateAction sd.2 newData now)
    | none => (sd.1, .noChange))

/-- Dependency array of the topology effect
(src/components/InterestGraph.tsx line 140): node count, link count, and
the two viewport props. -/
structure LayoutDeps where
  nodeCount : Nat
  linkCount : Nat
  width : Nat
  height : Nat
deriving DecidableEq, Repr

/-- React re-runs the topology effect exactly when some entry of the
dependency array changed between renders. -/
def effectReruns (old new : LayoutDeps) : Bool := decide (¬ old = new)

/-- A full reseed (positions discarded, simulation reinitialized) happens
when the topology effect re-runs and its guard passes
(src/components/InterestGraph.tsx line 27 requires a nonempty node set). -/
def reseedOccurs (old new : LayoutDeps) : Bool :=
  effectReruns old new && decide (0 < new.nodeCount)

/-- Concrete flagged guard result. -/
def riskFlag : GuardAnalysis :=
  { isProvocative := true, reasoning := "r", manipulationType := some "Rage Bait" }

/-- Concrete parse function standing in for JSON.parse of the model text. -/
def parseConst : String → GuardAnalysis :=
  fun _ => { isProvocative := false, reasoning := "", manipulationType := none }

/-- Concrete app state with a generation request in flight. -/
def stateLoading : AppModel := { state1 with isLoadingPost := true }

/-- Concrete dependency snapshot before an update. -/
def deps1 : LayoutDeps :=
  { nodeCount := 5, linkCount := 7, width := 800, height := 800 }

/-- Concrete dependency snapshot after a topology change (one more node). -/
def deps2 : LayoutDeps :=
  { nodeCount := 6, linkCount := 7, width := 800, height := 800 }

/-- Concrete node stamped 100 ms before the cycle at time 1000. -/
def recentNode : GraphNode := { gamingNode with lastUpdated := some 900 }

/-- The state machine never produces a zero delta: click gives 5 and every
vote transition gives one of the magnitudes 20, 25, 45; hence the guard at
src/App.tsx line 159 always takes the mutation branch once a post matched. -/
theorem applyInteraction_delta_ne_zero :
    ∀ (t : InteractionType) (v : Option Vote), (applyInteraction t v).2 ≠ 0 := by
  decide

/-- Structural unfolding of handleInteraction on the branch where the post
is found: the feed map, the active-post sync, and the node map all apply. -/
theorem handleInteraction_found (t : InteractionType) (topicId postId : String)
    (now : Int) (s : AppModel) (p : RedditPost)
    (hp : s.posts.find? (fun q => q.id = postId) = some p) :
    handleInteraction t topicId postId now s =
      { s with
        posts := s.posts.map
          (updatePostVote t (applyInteraction t p.userVote).1 postId),
        activePost := updateActivePost t (applyInteraction t p.userVote).1
          postId s.activePost,
        nodes := s.nodes.map
          (mutateNode topicId (applyInteraction t p.userVote).2 now) } := by
  have hne := applyInteraction_delta_ne_zero t p.userVote
  simp only [handleInteraction, hp]
  rw [if_pos hne]

/-- The mutation on the matching node sets the clamped value and stamps the
current time. -/
theorem mutateNode_match (topicId : String) (wc now : Int) (node : GraphNode)
    (h : node.id = topicId) :
    mutateNode topicId wc now node =
      { node with
        val := clampWeight (node.val + wc), lastUpdated := some now } := by
  simp [mutateNode, h]

/-- The mutation leaves non-matching nodes unchanged. -/
theorem mutateNode_other (topicId : String) (wc now : Int) (node : GraphNode)
    (h : node.id ≠ topicId) : mutateNode topicId wc now node = node := by
  simp [mutateNode, h]

/-- The mutation never changes the identity of a node. -/
theorem mutateNode_id (topicId : String) (wc now : Int) (node : GraphNode) :
    (mutateNode topicId wc now node).id = node.id := by
  unfold mutateNode
  split <;> rfl

/-- Lower clamp bound. -/
theorem clampWeight_lower (x : Int) : 10 ≤ clampWeight x :=
  le_max_left _ _

/-- Upper clamp bound. -/
theorem clampWeight_upper (x : Int) : clampWeight x ≤ 180 :=
  max_le (by norm_num) (min_le_left _ _)

/-- C1: applyInteraction realizes exactly the transition table of the spec:
upvote from none gives (up, +25), upvote from up gives (none, -25), upvote
from down gives (up, +45), downvote from none gives (down, -20), downvote
from down gives (none, +20), downvote from up gives (down, -45), and a
click from any state leaves the vote state unchanged with delta +5. -/
theorem applyInteraction_transition_table :
    applyInteraction .upvote none = (some .up, 25) ∧
    applyInteraction .upvote (some .up) = (none, -25) ∧
    applyInteraction .upvote (some .down) = (some .up, 45) ∧
    applyInteraction .downvote none = (some .down, -20) ∧
    applyInteraction .downvote (some .down) = (none, 20) ∧
    applyInteraction .downvote (some .up) = (some .down, -45) ∧
    ∀ v : Option Vote, applyInteraction .click v = (v, 5) := by
  refine ⟨rfl, rfl, rfl, rfl, rfl, rfl, fun v => rfl⟩

/-- C2: whenever the interaction handler finds the post, the topic node gets
exactly the clamped weight max 10 (min 180 (old + delta)), hence a weight in
the range from 10 to 180; and at weight 175 an upvote from none clamps to
180, not 200. Clamping is silent: the handler stores only the clamped value
and compensates nowhere. -/
theorem handleInteraction_weight_clamped (t : InteractionType)
    (topicId postId : String) (now : Int) (s : AppModel) (p : RedditPost)
    (hp : s.posts.find? (fun q => q.id = postId) = some p) :
    (∀ node ∈ s.nodes, node.id = topicId →
      ∃ nd ∈ (handleInteraction t topicId postId now s).nodes,
        nd.id = node.id ∧
        nd.val =
          max 10 (min 180 (node.val + (applyInteraction t p.userVote).2)) ∧
        10 ≤ nd.val ∧ nd.val ≤ 180) ∧
    clampWeight (175 + 25) = 180 ∧ clampWeight (175 + 25) ≠ 200 := by
  refine ⟨?_, by decide, by decide⟩
  intro node hmem hid
  rw [handleInteraction_found t topicId postId now s p hp]
  refine ⟨mutateNode topicId (applyInteraction t p.userVote).2 now node,
    List.mem_map_of_mem _ hmem, ?_⟩
  rw [mutateNode_match _ _ _ _ hid]
  exact ⟨rfl, rfl, clampWeight_lower _, clampWeight_upper _⟩

/-- Witness for C2: the concrete boundary state, where an upvote on the
node at weight 180 stays clamped at 180. -/
theorem handleInteraction_weight_clamped_witness :
    ∃ nd ∈ (handleInteraction .upvote "r/gaming" "post-1" 7 state1).nodes,
      nd.id = gamingNode.id ∧
      nd.val =
        max 10 (min 180
          (gamingNode.val + (applyInteraction .upvote post1.userVote).2)) ∧
      10 ≤ nd.val ∧ nd.val ≤ 180 := by
  have h := handleInteraction_weight_clamped .upvote "r/gaming" "post-1" 7
    state1 post1 (by decide)
  exact h.1 gamingNode (by simp [state1]) rfl

/-- C4 counterexample: at weight 180 an upvote from none leaves the clamped
weight unchanged (180), yet the node is still stamped with the current
time, contradicting the claim that no timestamp is stamped when clamping
leaves the weight unchanged. -/
theorem clamped_noop_still_stamped_cex :
    gamingNode.val = 180 ∧ gamingNode.lastUpdated = none ∧
    (handleInteraction .upvote "r/gaming" "post-1" 1000 state1).nodes =
      [{ gamingNode with lastUpdated := some 1000 }] := by
  refine ⟨rfl, rfl, ?_⟩
  decide

/-- C4 amended: the handler stamps the topic node with the current time on
every interaction that finds its post (the delta is always nonzero),
regardless of whether the clamped value differs from the previous value. -/
theorem mutation_always_stamps (t : InteractionType)
    (topicId postId : String) (now : Int) (s : AppModel) (p : RedditPost)
    (hp : s.posts.find? (fun q => q.id = postId) = some p) :
    ∀ node ∈ s.nodes, node.id = topicId →
      ∃ nd ∈ (handleInteraction t topicId postId now s).nodes,
        nd.id = node.id ∧ nd.lastUpdated = some now ∧
        nd.val = clampWeight (node.val + (applyInteraction t p.userVote).2) := by
  intro node hmem hid
  rw [handleInteraction_found t topicId postId now s p hp]
  refine ⟨mutateNode topicId (applyInteraction t p.userVote).2 now node,
    List.mem_map_of_mem _ hmem, ?_⟩
  rw [mutateNode_match _ _ _ _ hid]
  exact ⟨rfl, rfl, rfl⟩

/-- Witness for the amended C4 at the concrete boundary state. -/
theorem mutation_always_stamps_witness :
    ∃ nd ∈ (handleInteraction .upvote "r/gaming" "post-1" 1000 state1).nodes,
      nd.id = gamingNode.id ∧ nd.lastUpdated = some 1000 ∧
      nd.val =
        clampWeight (gamingNode.val +
          (applyInteraction .upvote post1.userVote).2) := by
  exact mutation_always_stamps .upvote "r/gaming" "post-1" 1000 state1 post1
    (by decide) gamingNode (by simp [state1]) rfl

/-- C10: an interaction whose postId matches no item in the feed returns
immediately and the entire state is unchanged: feed sequence, vote states,
active detail view, and every node weight and timestamp. -/
theorem unknown_post_noop (t : InteractionType) (topicId postId : String)
    (now : Int) (s : AppModel) (h : ∀ p ∈ s.posts, p.id ≠ postId) :
    handleInteraction t topicId postId now s = s := by
  have hf : s.posts.find? (fun p => p.id = postId) = none := by
    rw [List.find?_eq_none]
    intro p hp
    simpa using h p hp
  simp [handleInteraction, hf]

/-- Witness for C10: an interaction on an id absent from the concrete feed
changes nothing. -/
theorem unknown_post_noop_witness :
    handleInteraction .upvote "r/gaming" "no-such-post" 5 state1 = state1 :=
  unknown_post_noop .upvote "r/gaming" "no-such-post" 5 state1 (by decide)

/-- C3: with the viewport props fixed across the update and a nonempty
incoming node set, the layout engine performs a full reseed exactly when
the node count or the link count of the snapshot changes; a value-only
update (same counts) never re-runs the topology effect and is left to the
in-place live-update cycle. -/
theorem layout_reseed_iff_topology_change (old new : LayoutDeps)
    (hw : old.width = new.width) (hh : old.height = new.height)
    (hn : 0 < new.nodeCount) :
    (reseedOccurs old new = true ↔
      old.nodeCount ≠ new.nodeCount ∨ old.linkCount ≠ new.linkCount) ∧
    (old.nodeCount = new.nodeCount → old.linkCount = new.linkCount →
      reseedOccurs old new = false) := by
  obtain ⟨a, b, c, d⟩ := old
  obtain ⟨a2, b2, c2, d2⟩ := new
  simp only [LayoutDeps.width] at hw
  simp only [LayoutDeps.height] at hh
  subst hw
  subst hh
  simp only [LayoutDeps.nodeCount, LayoutDeps.linkCount] at hn ⊢
  constructor
  · simp [reseedOccurs, effectReruns, LayoutDeps.mk.injEq, hn]
  · intro h1 h2
    subst h1
    subst h2
    simp [reseedOccurs, effectReruns]

/-- Witness for C3: going from 5 nodes to 6 with the same links and
viewport triggers a reseed. -/
theorem layout_reseed_iff_topology_change_witness :
    reseedOccurs deps1 deps2 = true :=
  (layout_reseed_iff_topology_change deps1 deps2 rfl rfl (by decide)).1.mpr
    (Or.inl (by decide))

/-- C5: enrichment resolution merges by identity into whatever the feed is
at that moment: the feed keeps its length, the item at each position keeps
every field except that the matching item gets the guard result; a
non-matching item is returned identically; and when no item matches and
the detail view does not show that identity, the resolution is a silent
no-op on the whole state (the merge is a total function, so it cannot
throw). -/
theorem enrichment_merge_by_identity (pid : String) (risk : GuardAnalysis)
    (s : AppModel) :
    ((resolveEnrichment pid risk s).posts.length = s.posts.length) ∧
    (∀ i : Nat, (resolveEnrichment pid risk s).posts[i]? =
      (s.posts[i]?).map (mergeGuardInto pid risk)) ∧
    (∀ p : RedditPost, p.id ≠ pid → mergeGuardInto pid risk p = p) ∧
    (∀ p : RedditPost, p.id = pid →
      (mergeGuardInto pid risk p).id = p.id ∧
      (mergeGuardInto pid risk p).title = p.title ∧
      (mergeGuardInto pid risk p).subreddit = p.subreddit ∧
      (mergeGuardInto pid risk p).content = p.content ∧
      (mergeGuardInto pid risk p).topicId = p.topicId ∧
      (mergeGuardInto pid risk p).upvotes = p.upvotes ∧
      (mergeGuardInto pid risk p).comments = p.comments ∧
      (mergeGuardInto pid risk p).userVote = p.userVote ∧
      (mergeGuardInto pid risk p).guardResult = some risk) ∧
    ((∀ p ∈ s.posts, p.id ≠ pid) →
      (∀ a, s.activePost = some a → a.id ≠ pid) →
      resolveEnrichment pid risk s = s) := by
  refine ⟨?_, ?_, ?_, ?_, ?_⟩
  · exact List.length_map _ _
  · intro i
    exact List.getElem?_map ..
  · intro p hne
    simp [mergeGuardInto, hne]
  · intro p hid
    simp [mergeGuardInto, hid]
  · intro hfeed hactive
    have hunch : ∀ p ∈ s.posts, mergeGuardInto pid risk p = p := fun p hp => by
      simp [mergeGuardInto, hfeed p hp]
    have hposts : mergeGuardResult pid risk s.posts = s.posts := by
      unfold mergeGuardResult
      calc s.posts.map (mergeGuardInto pid risk)
          = s.posts.map id := List.map_congr_left hunch
        _ = s.posts := List.map_id _
    have hact : (match s.activePost with
        | some a =>
          if a.id = pid then some { a with guardResult := some risk }
          else some a
        | none => none) = s.activePost := by
      cases hcase : s.activePost with
      | none => rfl
      | some a => simp [hactive a hcase]
    unfold resolveEnrichment
    rw [hposts, hact]

/-- Witness for C5: resolving an enrichment whose identity is absent from
the concrete feed changes nothing. -/
theorem enrichment_merge_by_identity_witness :
    resolveEnrichment "absent-id" riskFlag state1 = state1 :=
  (enrichment_merge_by_identity "absent-id" riskFlag state1).2.2.2.2
    (by decide) (fun a ha => by simp [state1] at ha)

/-- C6 counterexample: the cited failure path returns a fallback result
that IS merged as an annotation: after the failed analysis of post-1
resolves, the item no longer lacks a guard result, contradicting the claim
that the affected item simply remains without one. -/
theorem enrichment_failure_fallback_cex :
    post1.guardResult = none ∧
    (resolveEnrichment "post-1" (analyzePostRiskOutcome none parseConst)
        state1).posts.map RedditPost.guardResult =
      [some { isProvocative := false, reasoning := "Analysis failed.",
              manipulationType := none }] := by
  refine ⟨rfl, ?_⟩
  decide

/-- C6 amended: when the analysis response is empty, the failure is
swallowed by returning the fallback result (isProvocative false, reasoning
Analysis failed., no manipulation type), which is merged like a normal
result; no retry is issued anywhere, and the graph nodes, the links, the
loading flag, and every feed item with a different identity are
untouched. -/
theorem enrichment_failure_fallback (parse : String → GuardAnalysis)
    (pid : String) (s : AppModel) :
    analyzePostRiskOutcome none parse =
      { isProvocative := false, reasoning := "Analysis failed.",
        manipulationType := none } ∧
    (resolveEnrichment pid (analyzePostRiskOutcome none parse) s).nodes =
      s.nodes ∧
    (resolveEnrichment pid (analyzePostRiskOutcome none parse) s).links =
      s.links ∧
    (resolveEnrichment pid
        (analyzePostRiskOutcome none parse) s).isLoadingPost =
      s.isLoadingPost ∧
    (∀ p ∈ s.posts, p.id ≠ pid →
      p ∈ (resolveEnrichment pid (analyzePostRiskOutcome none parse) s).posts) := by
  refine ⟨rfl, rfl, rfl, rfl, ?_⟩
  intro p hp hne
  have hfix : mergeGuardInto pid (analyzePostRiskOutcome none parse) p = p := by
    simp [mergeGuardInto, hne]
  have hm := List.mem_map_of_mem
    (mergeGuardInto pid (analyzePostRiskOutcome none parse)) hp
  rw [hfix] at hm
  exact hm

/-- Witness for the amended C6: the unrelated concrete item survives a
failed enrichment for another identity unchanged. -/
theorem enrichment_failure_fallback_witness :
    post1 ∈ (resolveEnrichment "other-id"
      (analyzePostRiskOutcome none parseConst) state1).posts :=
  (enrichment_failure_fallback parseConst "other-id" state1).2.2.2.2 post1
    (by simp [state1]) (by decide)

/-- While the in-flight flag is set, a run of triggers issues nothing. -/
theorem issuedCount_loading (s : AppModel) (h : s.isLoadingPost = true) :
    ∀ n : Nat, issuedCount s (List.replicate n .trigger) = 0 := by
  intro n
  induction n with
  | zero => rfl
  | succ k ih =>
    rw [List.replicate_succ]
    simp only [issuedCount, fetchStep, h, if_true]
    simpa using ih

/-- C7: the pagination controller keeps at most one request in flight: a
trigger while the flag is set is a no-op that issues nothing; a failed
completion clears the flag without appending an item and without issuing
anything; immediately after a failure a trigger issues a fresh request (so
retry happens only through a later trigger); and any run of consecutive
visibility triggers issues at most one request in total. -/
theorem pagination_at_most_one_in_flight :
    (∀ s : AppModel, s.isLoadingPost = true →
      fetchStep s .trigger = (s, false)) ∧
    (∀ s : AppModel,
      (fetchStep s .failure).1.posts = s.posts ∧
      (fetchStep s .failure).1.isLoadingPost = false ∧
      (fetchStep s .failure).2 = false) ∧
    (∀ s : AppModel,
      (fetchStep (fetchStep s .failure).1 .trigger).2 = true) ∧
    (∀ (s : AppModel) (n : Nat),
      issuedCount s (List.replicate n .trigger) ≤ 1) := by
  refine ⟨?_, ?_, ?_, ?_⟩
  · intro s h
    simp [fetchStep, h]
  · intro s
    exact ⟨rfl, rfl, rfl⟩
  · intro s
    simp [fetchStep]
  · intro s n
    cases n with
    | zero => simp [issuedCount]
    | succ k =>
      rw [List.replicate_succ]
      by_cases h : s.isLoadingPost = true
      · simp only [issuedCount, fetchStep, h, if_true]
        simp [issuedCount_loading s h k]
      · simp only [issuedCount, fetchStep, h, if_false]
        have hload : ({ s with isLoadingPost := true } : AppModel).isLoadingPost
            = true := rfl
        simp [issuedCount_loading _ hload k]

/-- Witness for C7: at the concrete in-flight state a trigger is a no-op,
and three rapid triggers from the idle state issue exactly at most one
request. -/
theorem pagination_at_most_one_in_flight_witness :
    fetchStep stateLoading .trigger = (stateLoading, false) ∧
    issuedCount state1 (List.replicate 3 .trigger) ≤ 1 :=
  ⟨pagination_at_most_one_in_flight.1 stateLoading rfl,
   pagination_at_most_one_in_flight.2.2.2 state1 3⟩

/-- C8: in one live-update cycle the classification of every node is a
pointwise function of that node's own matched data, so one node's pulse
has no effect on the transition, size, or color of any other circle (and
the cycle writes no positions at all): the matched node receives the pulse
exactly when its own timestamp is within the 1000 ms window; a non-recent
node whose radius changed receives only the passive resize; a non-recent
node with an unchanged radius receives no transition. -/
theorem reconciler_pulse_only_recent (simNodes : List (String × Int))
    (dataNodes : List GraphNode) (now : Int) (nid : String) (oldVal : Int)
    (nd : GraphNode) (hmem : (nid, oldVal) ∈ simNodes)
    (hfind : dataNodes.find? (fun n => n.id = nid) = some nd) :
    (nid, updateAction oldVal nd now) ∈
      reconcileCycle simNodes dataNodes now ∧
    (updateAction oldVal nd now = .pulse ↔
      isRecent nd.lastUpdated now = true) ∧
    (isRecent nd.lastUpdated now = false →
      valChangedOverTenth oldVal nd.val = true →
      updateAction oldVal nd now = .passiveResize) ∧
    (isRecent nd.lastUpdated now = false →
      valChangedOverTenth oldVal nd.val = false →
      updateAction oldVal nd now = .noChange) := by
  refine ⟨?_, ?_, ?_, ?_⟩
  · have hval : (fun sd : String × Int =>
        match dataNodes.find? (fun n => n.id = sd.1) with
        | some newData => (sd.1, updateAction sd.2 newData now)
        | none => (sd.1, UpdateAction.noChange)) (nid, oldVal) =
          (nid, updateAction oldVal nd now) := by
      simp [hfind]
    unfold reconcileCycle
    rw [← hval]
    exact List.mem_map_of_mem _ hmem
  · cases hr : isRecent nd.lastUpdated now with
    | true => simp [updateAction, hr]
    | false =>
      cases hc : valChangedOverTenth oldVal nd.val with
      | true => simp [updateAction, hr, hc]
      | false => simp [updateAction, hr, hc]
  · intro hr hc
    simp [updateAction, hr, hc]
  · intro hr hc
    simp [updateAction, hr, hc]

/-- Witness for C8: the concrete node stamped 100 ms ago receives the pulse
in the cycle at time 1000. -/
theorem reconciler_pulse_only_recent_witness :
    ("r/gaming", UpdateAction.pulse) ∈
      reconcileCycle [("r/gaming", 180)] [recentNode] 1000 := by
  have h := reconciler_pulse_only_recent [("r/gaming", 180)] [recentNode]
    1000 "r/gaming" 180 recentNode (by decide) (by decide)
  have hp : updateAction 180 recentNode 1000 = .pulse := h.2.1.mpr (by decide)
  rw [← hp]
  exact h.1

/-- Feed component of the found branch of the handler. -/
theorem handleInteraction_posts (t : InteractionType)
    (topicId postId : String) (now : Int) (s : AppModel) (p : RedditPost)
    (hp : s.posts.find? (fun q => q.id = postId) = some p) :
    (handleInteraction t topicId postId now s).posts =
      s.posts.map
        (updatePostVote t (applyInteraction t p.userVote).1 postId) := by
  rw [handleInteraction_found t topicId postId now s p hp]

/-- Node component of the found branch of the handler. -/
theorem handleInteraction_nodes (t : InteractionType)
    (topicId postId : String) (now : Int) (s : AppModel) (p : RedditPost)
    (hp : s.posts.find? (fun q => q.id = postId) = some p) :
    (handleInteraction t topicId postId now s).nodes =
      s.nodes.map
        (mutateNode topicId (applyInteraction t p.userVote).2 now) := by
  rw [handleInteraction_found t topicId postId now s p hp]

/-- Value of the mutated matching node. -/
theorem mutateNode_val_match (topicId : String) (wc now : Int)
    (node : GraphNode) (h : node.id = topicId) :
    (mutateNode topicId wc now node).val = clampWeight (node.val + wc) := by
  rw [mutateNode_match _ _ _ _ h]

/-- The feed updater never changes the identity of a post. -/
theorem updatePostVote_id (t : InteractionType) (v : Option Vote)
    (pid : String) (p : RedditPost) :
    (updatePostVote t v pid p).id = p.id := by
  unfold updatePostVote
  split
  · rfl
  · split <;> rfl

/-- On the matching post, a vote action replaces exactly the vote state. -/
theorem updatePostVote_vote (t : InteractionType) (v : Option Vote)
    (pid : String) (p : RedditPost) (hid : p.id = pid)
    (ht : t ≠ InteractionType.click) :
    updatePostVote t v pid p = { p with userVote := v } := by
  simp [updatePostVote, hid, ht]

/-- Looking a post up by identity commutes with the vote updater, because
the updater preserves identities. -/
theorem find?_map_updatePostVote (t : InteractionType) (v : Option Vote)
    (pid : String) (l : List RedditPost) :
    (l.map (updatePostVote t v pid)).find? (fun q => q.id = pid) =
      (l.find? (fun q => q.id = pid)).map (updatePostVote t v pid) := by
  rw [List.find?_map]
  have hpred : ((fun q : RedditPost => decide (q.id = pid)) ∘
      updatePostVote t v pid) = fun q : RedditPost => decide (q.id = pid) := by
    funext q
    simp [Function.comp, updatePostVote_id]
  rw [hpred]

/-- Shared core of the vote toggle round trip, for a vote action whose
toggle-on transition from none is (v₁, d₁) and whose toggle-off transition
is (none, d₂) with d₂ = -d₁. -/
theorem vote_toggle_aux (a : InteractionType) (v₁ : Option Vote)
    (d₁ d₂ : Int) (hA : applyInteraction a none = (v₁, d₁))
    (hB : applyInteraction a v₁ = (none, d₂)) (hsum : d₂ = -d₁)
    (hc : a ≠ InteractionType.click) (topicId postId : String)
    (now₁ now₂ : Int) (s : AppModel) (p : RedditPost)
    (hp : s.posts.find? (fun q => q.id = postId) = some p)
    (hv : p.userVote = none) :
    (∃ p₂, (handleInteraction a topicId postId now₂
        (handleInteraction a topicId postId now₁ s)).posts.find?
        (fun q => q.id = postId) = some p₂ ∧ p₂.userVote = none) ∧
    (∀ node ∈ s.nodes, node.id = topicId →
      clampWeight (node.val + d₁) = node.val + d₁ →
      clampWeight node.val = node.val →
      ∃ nd ∈ (handleInteraction a topicId postId now₂
          (handleInteraction a topicId postId now₁ s)).nodes,
        nd.id = node.id ∧ nd.val = node.val) := by
  have hpid : p.id = postId := by simpa using List.find?_some hp
  have happ : applyInteraction a p.userVote = (v₁, d₁) := by rw [hv, hA]
  have h1p : (handleInteraction a topicId postId now₁ s).posts =
      s.posts.map (updatePostVote a v₁ postId) := by
    rw [handleInteraction_posts a topicId postId now₁ s p hp, happ]
  have h1n : (handleInteraction a topicId postId now₁ s).nodes =
      s.nodes.map (mutateNode topicId d₁ now₁) := by
    rw [handleInteraction_nodes a topicId postId now₁ s p hp, happ]
  have hfind1 : (handleInteraction a topicId postId now₁ s).posts.find?
      (fun q => q.id = postId) = some { p with userVote := v₁ } := by
    rw [h1p, find?_map_updatePostVote, hp]
    simp [updatePostVote_vote a v₁ postId p hpid hc]
  have happ2 : applyInteraction a
      ({ p with userVote := v₁ } : RedditPost).userVote = (none, d₂) := hB
  have h2p : (handleInteraction a topicId postId now₂
      (handleInteraction a topicId postId now₁ s)).posts =
      (handleInteraction a topicId postId now₁ s).posts.map
        (updatePostVote a none postId) := by
    rw [handleInteraction_posts a topicId postId now₂ _ _ hfind1, happ2]
  have h2n : (handleInteraction a topicId postId now₂
      (handleInteraction a topicId postId now₁ s)).nodes =
      (s.nodes.map (mutateNode topicId d₁ now₁)).map
        (mutateNode topicId d₂ now₂) := by
    rw [handleInteraction_nodes a topicId postId now₂ _ _ hfind1, happ2, h1n]
  constructor
  · refine ⟨{ p with userVote := none }, ?_, rfl⟩
    have hid2 : ({ p with userVote := v₁ } : RedditPost).id = postId := hpid
    rw [h2p, find?_map_updatePostVote, hfind1]
    simp [updatePostVote_vote a none postId { p with userVote := v₁ } hid2 hc]
  · intro node hmem hid hcl₁ hcl₂
    refine ⟨mutateNode topicId d₂ now₂ (mutateNode topicId d₁ now₁ node),
      ?_, ?_, ?_⟩
    · rw [h2n]
      exact List.mem_map_of_mem _ (List.mem_map_of_mem _ hmem)
    · rw [mutateNode_id, mutateNode_id]
    · have hid₁ : (mutateNode topicId d₁ now₁ node).id = topicId := by
        rw [mutateNode_id]
        exact hid
      rw [mutateNode_val_match _ _ _ _ hid₁, mutateNode_val_match _ _ _ _ hid]
      rw [hcl₁]
      have harith : node.val + d₁ + d₂ = node.val := by
        rw [hsum]
        ring
      rw [harith, hcl₂]

/-- C9: starting from a post with no vote cast, pressing the same vote
button twice (toggle on, then toggle off) returns the vote state of the
post back to none; and every topic node for which neither application is
truncated by clamping has its weight returned exactly to the pre-vote
value. -/
theorem vote_toggle_roundtrip (a : InteractionType)
    (ha : a = InteractionType.upvote ∨ a = InteractionType.downvote)
    (topicId postId : String) (now₁ now₂ : Int) (s : AppModel)
    (p : RedditPost)
    (hp : s.posts.find? (fun q => q.id = postId) = some p)
    (hv : p.userVote = none) :
    (∃ p₂, (handleInteraction a topicId postId now₂
        (handleInteraction a topicId postId now₁ s)).posts.find?
        (fun q => q.id = postId) = some p₂ ∧ p₂.userVote = none) ∧
    (∀ node ∈ s.nodes, node.id = topicId →
      clampWeight (node.val + (applyInteraction a none).2) =
        node.val + (applyInteraction a none).2 →
      clampWeight node.val = node.val →
      ∃ nd ∈ (handleInteraction a topicId postId now₂
          (handleInteraction a topicId postId now₁ s)).nodes,
        nd.id = node.id ∧ nd.val = node.val) := by
  rcases ha with ha | ha
  · subst ha
    exact vote_toggle_aux .upvote (some .up) 25 (-25) rfl rfl (by norm_num)
      (by decide) topicId postId now₁ now₂ s p hp hv
  · subst ha
    exact vote_toggle_aux .downvote (some .down) (-20) 20 rfl rfl
      (by norm_num) (by decide) topicId postId now₁ now₂ s p hp hv

/-- Witness for C9: two upvotes on the concrete unclamped state return the
vote to none and the node weight to 50. -/
theorem vote_toggle_roundtrip_witness :
    (∃ p₂, (handleInteraction .upvote "r/movies" "post-2" 20
        (handleInteraction .upvote "r/movies" "post-2" 10 state2)).posts.find?
        (fun q => q.id = "post-2") = some p₂ ∧ p₂.userVote = none) ∧
    (∃ nd ∈ (handleInteraction .upvote "r/movies" "post-2" 20
        (handleInteraction .upvote "r/movies" "post-2" 10 state2)).nodes,
      nd.id = midNode.id ∧ nd.val = midNode.val) := by
  have h := vote_toggle_roundtrip .upvote (Or.inl rfl) "r/movies" "post-2"
    10 20 state2 post2 (by decide) rfl
  exact ⟨h.1, h.2 midNode (by simp [state2]) rfl (by decide) (by decide)⟩

end EchoChamber
